import Mathlib

/-!
Verification of the webhook ingestion / dispatch pipeline, the session
authentication gate, and the masked environment introspection endpoint of
the `context-ai-v2` backend service.

The Python sources are embedded shallowly:

* `src/app/main.py` — the Stripe webhook endpoint (`stripe_webhook`), the
  handler table (`route_event`), the two background handlers, and the
  in-memory seen-event set (`seen_events`).
* `src/app/api/v1/deps.py` and `src/app/api/v1/auth_google.py` — the session
  authentication gate (`require_user`, `auth_me`).
* `src/app/api/v1/routes.py` together with `secret_dep` from
  `src/app/main.py` — the masked `/v1/env` endpoint; `src/main.py` — the
  earlier probe revision of `/env`.

Python dict/JSON values are modelled by `JValue`; Python's truthiness and
its `x or y` idiom are modelled explicitly, since the source code relies on
them (`if not sig`, `data.get("data") or {}`, `if not request.session.get("user")`).
-/

namespace ContextAI

/-- A Python value as it occurs in JSON payloads, session mappings and
handler arguments: `None`, booleans, strings, integers, lists and dicts
(dicts modelled as association lists looked up on the first matching key). -/
inductive JValue where
  | null
  | bool (b : Bool)
  | str (s : String)
  | num (n : Int)
  | arr (xs : List JValue)
  | obj (fields : List (String × JValue))

mutual

/-- Structural equality on `JValue`, modelling Python `==` (as used by
`in` on the seen-event set and by dict key lookup). -/
def JValue.beq : JValue → JValue → Bool
  | .null, .null => true
  | .bool a, .bool b => a == b
  | .str a, .str b => a == b
  | .num a, .num b => a == b
  | .arr a, .arr b => JValue.beqList a b
  | .obj a, .obj b => JValue.beqFields a b
  | _, _ => false

/-- Elementwise equality of Python lists. -/
def JValue.beqList : List JValue → List JValue → Bool
  | [], [] => true
  | a :: as, b :: bs => JValue.beq a b && JValue.beqList as bs
  | _, _ => false

/-- Entrywise equality of Python dicts (as association lists). -/
def JValue.beqFields : List (String × JValue) → List (String × JValue) → Bool
  | [], [] => true
  | (k1, v1) :: as, (k2, v2) :: bs =>
    k1 == k2 && JValue.beq v1 v2 && JValue.beqFields as bs
  | _, _ => false

end

mutual

theorem JValue.beq_refl : (a : JValue) → JValue.beq a a = true
  | .null => rfl
  | .bool b => by simp [JValue.beq]
  | .str s => by simp [JValue.beq]
  | .num n => by simp [JValue.beq]
  | .arr xs => by rw [JValue.beq]; exact JValue.beqList_refl xs
  | .obj fs => by rw [JValue.beq]; exact JValue.beqFields_refl fs

theorem JValue.beqList_refl : (as : List JValue) → JValue.beqList as as = true
  | [] => rfl
  | a :: as => by
    rw [JValue.beqList, JValue.beq_refl a, JValue.beqList_refl as]; rfl

theorem JValue.beqFields_refl :
    (as : List (String × JValue)) → JValue.beqFields as as = true
  | [] => rfl
  | (k, v) :: as => by
    rw [JValue.beqFields, JValue.beq_refl v, JValue.beqFields_refl as]; simp

end

/-- Python truthiness (`bool(v)`): `None`, `False`, `""`, `0`, `[]` and
`{}` are falsy, everything else truthy. -/
def JValue.truthy : JValue → Bool
  | .null => false
  | .bool b => b
  | .str s => !s.isEmpty
  | .num n => n != 0
  | .arr xs => !xs.isEmpty
  | .obj fs => !fs.isEmpty

/-- The Python idiom `v or w`: `w` when `v` is falsy, otherwise `v`. -/
def JValue.pyOr (v w : JValue) : JValue := if v.truthy then v else w

/-- `d.get(k)` on a dict given as its field list: the stored value, or
`None` when the key is absent. -/
def dictGet (fields : List (String × JValue)) (k : String) : JValue :=
  (fields.lookup k).getD .null

/-- `v.get(k)` on an arbitrary Python value: `none` models the
`AttributeError` raised when `v` is not a dict. -/
def JValue.get? : JValue → String → Option JValue
  | .obj fs, k => some (dictGet fs k)
  | _, _ => none

/-! ## Session authentication gate

`src/app/api/v1/deps.py` (`require_user`) and the `/v1/auth/me` endpoint in
`src/app/api/v1/auth_google.py` (`auth_me`). The session is the per-request
mapping `request.session`, modelled as an association list. Both functions
only read the session; the embedding is a pure function of it. -/

/-- Result of the authentication gate: HTTP 401 or the stored record. -/
inductive AuthResult where
  | unauthenticated
  | user (u : JValue)

/-- `require_user` from `src/app/api/v1/deps.py`:
`if not request.session.get("user"): raise HTTPException(401, ...)` and
otherwise `return request.session["user"]`. Note the check is Python
truthiness of the stored value, not key presence. -/
def require_user (session : List (String × JValue)) : AuthResult :=
  if !(dictGet session "user").truthy then .unauthenticated
  else .user (dictGet session "user")

/-- The `/v1/auth/me` endpoint body from `src/app/api/v1/auth_google.py`:
`user = request.session.get("user"); if not user: raise 401; return user`. -/
def auth_me (session : List (String × JValue)) : AuthResult :=
  let user := dictGet session "user"
  if !user.truthy then .unauthenticated else .user user

/-- Whether the session mapping holds a stored entry under the key
`"user"` (key presence, regardless of the stored value). -/
def sessionHasUser (session : List (String × JValue)) : Bool :=
  (session.lookup "user").isSome

/-! ## Masked environment introspection

`secret_dep` from `src/app/main.py` (lines 134–143), the `/v1/env` endpoint
from `src/app/api/v1/routes.py`, and the earlier probe revision's `/env`
from `src/main.py`.

The settings snapshot is the pydantic `Settings` object: each secret an
optional string. `src/app/core/config.py` in this snapshot declares the
first four fields; the Azure fields are referenced by `secret_dep` and
`src/app/core/search.py` and belong to a later revision of the settings
class, so they are carried here as the same kind of optional string. -/

/-- The settings snapshot: optional secret strings, `none` when the
environment variable is absent. -/
structure Settings where
  openai_api_key : Option String
  stripe_secret_key : Option String
  google_client_id : Option String
  google_client_secret : Option String
  azure_search_endpoint : Option String
  azure_search_key : Option String
deriving DecidableEq

/-- Python truthiness of an optional string (`None` and `""` falsy). -/
def optTruthy : Option String → Bool
  | none => false
  | some s => s.length != 0

/-- `secret_dep` from `src/app/main.py`: the dict passed into the `/v1/env`
route. All values are forwarded raw except `azure_search_key`, which is
already reduced to `"present"`/`None` here
(`"present" if s.azure_search_key else None`). -/
def secret_dep (s : Settings) : List (String × Option String) :=
  [("openai_api_key", s.openai_api_key),
   ("stripe_secret_key", s.stripe_secret_key),
   ("google_client_id", s.google_client_id),
   ("google_client_secret", s.google_client_secret),
   ("azure_search_endpoint", s.azure_search_endpoint),
   ("azure_search_key", if optTruthy s.azure_search_key then some "present" else none)]

/-- `mask` from the `/v1/env` route in `src/app/api/v1/routes.py`: `None`
stays `None`, the literal string `"present"` stays `"present"`, anything
else becomes `"present(len=N)"`. -/
def mask : Option String → Option String
  | none => none
  | some v =>
    if v = "present" then some "present"
    else some ("present(len=" ++ toString v.length ++ ")")

/-- `s.get(k)` on the `secret_dep` dict. -/
def depGet (d : List (String × Option String)) (k : String) : Option String :=
  (d.lookup k).getD none

/-- The `/v1/env` response body (the inner `"env"` object) from
`src/app/api/v1/routes.py`: every key is masked except
`AZURE_SEARCH_ENDPOINT`, which is forwarded verbatim. -/
def envResponse (s : Settings) : List (String × Option String) :=
  let d := secret_dep s
  [("OPENAI_API_KEY", mask (depGet d "openai_api_key")),
   ("STRIPE_SECRET_KEY", mask (depGet d "stripe_secret_key")),
   ("GOOGLE_CLIENT_ID", mask (depGet d "google_client_id")),
   ("GOOGLE_CLIENT_SECRET", mask (depGet d "google_client_secret")),
   ("AZURE_SEARCH_ENDPOINT", depGet d "azure_search_endpoint"),
   ("AZURE_SEARCH_KEY", mask (depGet d "azure_search_key"))]

/-- The probe revision's environment view (`src/main.py`): the four
secrets read from the environment. -/
structure ProbeEnv where
  openai_api_key : Option String
  stripe_secret_key : Option String
  google_client_id : Option String
  google_client_secret : Option String
deriving DecidableEq

/-- The probe revision's masking: `None` stays `None`, anything else
becomes `"present(len=N)"` (`src/main.py`, `/env`). -/
def probeMask : Option String → Option String
  | none => none
  | some v => some ("present(len=" ++ toString v.length ++ ")")

/-- The `/env` response body (the inner `"env"` object) of the probe
revision `src/main.py`. -/
def probeEnvResponse (e : ProbeEnv) : List (String × Option String) :=
  [("OPENAI_API_KEY", probeMask e.openai_api_key),
   ("STRIPE_SECRET_KEY", probeMask e.stripe_secret_key),
   ("GOOGLE_CLIENT_ID", probeMask e.google_client_id),
   ("GOOGLE_CLIENT_SECRET", probeMask e.google_client_secret)]

/-- Two optional secrets agree on presence and, when present, on length. -/
def presenceLenAgree : Option String → Option String → Bool
  | none, none => true
  | some a, some b => a.length == b.length
  | _, _ => false

/-- Two settings snapshots agree, secret by secret, on which secrets are
present and on their lengths. -/
def settingsAgree (s1 s2 : Settings) : Bool :=
  presenceLenAgree s1.openai_api_key s2.openai_api_key &&
  presenceLenAgree s1.stripe_secret_key s2.stripe_secret_key &&
  presenceLenAgree s1.google_client_id s2.google_client_id &&
  presenceLenAgree s1.google_client_secret s2.google_client_secret &&
  presenceLenAgree s1.azure_search_endpoint s2.azure_search_endpoint &&
  presenceLenAgree s1.azure_search_key s2.azure_search_key

/-- Two optional secrets agree on whether they are the literal string
`"present"` (the value `mask` special-cases). -/
abbrev samePresentLiteral (a b : Option String) : Prop :=
  a = some "present" ↔ b = some "present"

/-- A masked output value: `null`, `"present"`, or `"present(len=N)"` —
never any other string. -/
def isPresenceMarker : Option String → Prop
  | none => True
  | some v => v = "present" ∨ ∃ n : Nat, v = "present(len=" ++ toString n ++ ")"

/-! ## Webhook verifier

The endpoint delegates verification to `stripe.Webhook.construct_event`
(the processor SDK, an external collaborator not under `src/`). Following
spec §4.1 it is modelled here as a pure function of the raw body bytes, the
signature header value and the shared secret: it first checks the
signature computed over the exact `raw_bytes` with the secret, then parses
the bytes into the event structure. The signature scheme and the wire
format are owned by the processor; they are modelled by a concrete keyed
hash and a concrete unambiguous encoding of the nested key-value event
structure. -/

/-- The raw request body, a byte string. -/
abbrev Bytes := List Nat

/-- Modelled from the spec: the processor's signature scheme (spec §4.1,
"the computed signature over `raw_bytes` using the shared secret"). A
concrete keyed hash of the exact payload bytes, rendered in the header
format `v1=<hash>`. -/
def computeSignature (secret : String) (payload : Bytes) : String :=
  let seed := secret.data.foldl (fun h c => (h * 131 + c.toNat + 1) % 1000000007) 7
  "v1=" ++ toString (payload.foldl (fun h b => (h * 131 + b + 1) % 1000000007) seed)

/-- Reads `n` characters off the byte stream (helper of the wire-format
decoder). -/
def decodeChars : Nat → Bytes → Option (List Char × Bytes)
  | 0, rest => some ([], rest)
  | _ + 1, [] => none
  | n + 1, c :: rest =>
    match decodeChars n rest with
    | some (cs, r) => some (Char.ofNat c :: cs, r)
    | none => none

mutual

/-- Modelled from the spec: one value of the processor's wire format
(spec §3, the event's "nested key-value structure"), as an unambiguous
tagged encoding — tag 0 `None`, tag 1 booleans, tag 2 length-prefixed
strings, tag 3 signed integers, tag 5 field-counted objects. The fuel
argument bounds the recursion depth. -/
def decodeVal : Nat → Bytes → Option (JValue × Bytes)
  | 0, _ => none
  | fuel + 1, bs =>
    match bs with
    | 0 :: rest => some (JValue.null, rest)
    | 1 :: b :: rest => some (JValue.bool (b != 0), rest)
    | 2 :: n :: rest =>
      match decodeChars n rest with
      | some (cs, r) => some (JValue.str (String.mk cs), r)
      | none => none
    | 3 :: sg :: m :: rest =>
      some (JValue.num (if sg == 0 then (m : Int) else -(m : Int)), rest)
    | 5 :: n :: rest =>
      match decodeFields fuel n rest with
      | some (fs, r) => some (JValue.obj fs, r)
      | none => none
    | _ => none

/-- Decodes `count` key-value fields of an object (mutual with
`decodeVal`). -/
def decodeFields : Nat → Nat → Bytes → Option (List (String × JValue) × Bytes)
  | _, 0, rest => some ([], rest)
  | 0, _ + 1, _ => none
  | fuel + 1, count + 1, bs =>
    match bs with
    | klen :: rest =>
      match decodeChars klen rest with
      | some (kcs, r1) =>
        match decodeVal fuel r1 with
        | some (v, r2) =>
          match decodeFields fuel count r2 with
          | some (fs, r3) => some ((String.mk kcs, v) :: fs, r3)
          | none => none
        | none => none
      | none => none
    | [] => none

end

/-- Modelled from the spec: parsing the verified bytes into the event
structure (spec §4.1 `MalformedPayload`: "the bytes, after successful
signature verification, do not parse into the expected event structure").
The whole body must decode to a single value. -/
def parseEvent (bs : Bytes) : Option JValue :=
  match decodeVal (2 * bs.length + 2) bs with
  | some (v, []) => some v
  | _ => none

/-- The SDK's verification failure modes as they are told apart by the
endpoint's `except` clauses: `SignatureVerificationError` versus any other
parse failure. -/
inductive StripeError where
  | signatureVerification
  | parseError
deriving DecidableEq

/-- Modelled from the spec: `stripe.Webhook.construct_event(payload, sig, secret)`
(spec §4.1). Verifies the signature over the exact raw bytes first, then
parses them; the expected event structure is a key-value object, returned
as its field list. -/
def constructEvent (payload : Bytes) (sig : String) (secret : String) :
    Except StripeError (List (String × JValue)) :=
  if sig = computeSignature secret payload then
    match parseEvent payload with
    | some (.obj fs) => .ok fs
    | _ => .error .parseError
  else .error .signatureVerification

/-! ## Event dispatcher

Lines 155–244 of `src/app/main.py`: the seen-event set, the handler table
`route_event`, the two handlers, and the dispatch section of
`stripe_webhook` that runs once `construct_event` has succeeded. -/

/-- The two handler functions of `src/app/main.py`. -/
inductive TaskHandler where
  | handle_checkout_completed
  | handle_subscription_updated
deriving DecidableEq

/-- `route_event` from `src/app/main.py`: the fixed mapping from the
event's `type` value to a handler; `.get` yields `None` for any other
value (including a non-string or missing `type`). -/
def route_event : JValue → Option TaskHandler
  | .str "checkout.session.completed" => some .handle_checkout_completed
  | .str "customer.subscription.updated" => some .handle_subscription_updated
  | .str "customer.subscription.created" => some .handle_subscription_updated
  | .str "invoice.payment_succeeded" => some .handle_subscription_updated
  | .str "invoice.payment_failed" => some .handle_subscription_updated
  | _ => none

/-- A background task as registered by `background.add_task(handler, data, event)`:
the handler together with its two arguments. -/
structure ScheduledTask where
  handler : TaskHandler
  data : JValue
  full_event : JValue

/-- The in-memory idempotency state `seen_events` (line 157 of
`src/app/main.py`). Modelled as the list of identifiers added so far;
membership is Python `in` via `JValue.beq`. -/
def seenMem (v : JValue) (seen : List JValue) : Bool :=
  seen.any (JValue.beq v)

/-- `seen_events` at process start: `set()`. -/
def initial_seen : List JValue := []

/-- An HTTP-level webhook outcome: an `HTTPException`
(status code and detail string) or the 200 response — `ok false` is the
body with `received` alone and `ok true` the body carrying
`duplicate` as well. -/
inductive WebhookResponse where
  | error (status : Nat) (detail : String)
  | ok (duplicate : Bool)
deriving DecidableEq

/-- What one webhook request leaves behind: the HTTP response, the updated
seen-event set, and the background task registered, if any. -/
structure DispatchResult where
  response : WebhookResponse
  seen : List JValue
  task : Option ScheduledTask

/-- `event.get("id")` over the verified event's fields (absent keys give
`None`, which is what the code then stores in the seen-event set). -/
def eventId (event : List (String × JValue)) : JValue := dictGet event "id"

/-- `event.get("type")` over the verified event's fields. -/
def eventType (event : List (String × JValue)) : JValue := dictGet event "type"

/-- `(event.get("data") or {}).get("object") or {}` (line 229 of
`src/app/main.py`). `none` models the `AttributeError` raised when
`event["data"]` is truthy but not a dict — FastAPI turns that uncaught
exception into an HTTP 500. -/
def extractData (event : List (String × JValue)) : Option JValue :=
  match ((dictGet event "data").pyOr (.obj [])).get? "object" with
  | some v => some (v.pyOr (.obj []))
  | none => none

/-- Lines 227–244 of `src/app/main.py`: the dispatch section run on the
verified event. In source order: read `id`, `type` and `data`; return the
`duplicate` response if the identifier is already seen; otherwise add it,
look up the handler, register the background task when one exists, and
return the plain `received` response. -/
def dispatchEvent (event : List (String × JValue)) (seen : List JValue) :
    DispatchResult :=
  match extractData event with
  | none => ⟨.error 500 "Internal Server Error", seen, none⟩
  | some data =>
    if seenMem (eventId event) seen then ⟨.ok true, seen, none⟩
    else
      match route_event (eventType event) with
      | some h =>
        ⟨.ok false, eventId event :: seen, some ⟨h, data, .obj event⟩⟩
      | none => ⟨.ok false, eventId event :: seen, none⟩

/-- One inbound webhook request: the raw body bytes and the value of the
`stripe-signature` header (`none` when the header is absent). -/
structure WebhookRequest where
  body : Bytes
  stripe_signature : Option String

/-- The `stripe_webhook` endpoint (lines 208–244 of `src/app/main.py`):
HTTP 500 when the webhook secret is empty or unset; HTTP 400 when the
signature header is absent or empty (`if not sig`); HTTP 400 for a
signature failure or any other `construct_event` failure; otherwise the
dispatch section on the verified event. -/
def stripe_webhook (webhookSecret : String) (req : WebhookRequest)
    (seen : List JValue) : DispatchResult :=
  if webhookSecret.isEmpty then
    ⟨.error 500 "Webhook not configured", seen, none⟩
  else
    match req.stripe_signature with
    | none => ⟨.error 400 "Missing Stripe-Signature header", seen, none⟩
    | some sg =>
      if sg.isEmpty then ⟨.error 400 "Missing Stripe-Signature header", seen, none⟩
      else
        match constructEvent req.body sg webhookSecret with
        | .error .signatureVerification => ⟨.error 400 "Invalid signature", seen, none⟩
        | .error .parseError => ⟨.error 400 "Invalid payload", seen, none⟩
        | .ok event => dispatchEvent event seen

/-- A process run: the seen-event set after serving a list of webhook
requests in order. -/
def runWebhook (webhookSecret : String) (reqs : List WebhookRequest)
    (seen : List JValue) : List JValue :=
  reqs.foldl (fun s r => (stripe_webhook webhookSecret r s).seen) seen

/-! ## Background handlers

`handle_checkout_completed` and `handle_subscription_updated` from
`src/app/main.py` (lines 159–195). Their only effect is the Firestore
upsert performed by `write_customer_subscription_snapshot` (an external
collaborator); neither function references `seen_events`. A handler can
also raise (modelled as `raised`), e.g. on a `.get` against a non-dict
value — the starlette background-task machinery then merely logs, after
the HTTP response has already been sent. -/

/-- The document upsert that `write_customer_subscription_snapshot`
performs against Firestore — the handler's externally visible effect. -/
structure FirestoreWrite where
  customer_id : JValue
  email : JValue
  subscription_id : JValue
  status : JValue
  raw : JValue

/-- How a scheduled handler ends: it raised, or it completed having
performed the given write (or none, when `customer_id` was falsy). -/
inductive HandlerOutcome where
  | raised
  | completed (write : Option FirestoreWrite)

/-- Python `v.lower()`: defined on strings, raises otherwise. -/
def pyLower : JValue → Option JValue
  | .str s => some (.str s.toLower)
  | _ => none

/-- `handle_checkout_completed` from `src/app/main.py`: reads
`customer_details.email`, `customer`, `subscription` and the lowercased
`status` out of the event's data object and, when `customer` is truthy,
writes the subscription snapshot with the full event as audit raw. -/
def handle_checkout_completed (data full_event : JValue) : HandlerOutcome :=
  match data.get? "customer_details" with
  | none => .raised
  | some cd =>
    match (cd.pyOr (.obj [])).get? "email" with
    | none => .raised
    | some email =>
      let customer_id := (data.get? "customer").getD .null
      let subscription_id := (data.get? "subscription").getD .null
      match pyLower (((data.get? "status").getD .null).pyOr (.str "")) with
      | none => .raised
      | some status =>
        if customer_id.truthy then
          .completed (some ⟨customer_id, email, subscription_id, status, full_event⟩)
        else .completed none

/-- `handle_subscription_updated` from `src/app/main.py`: reads `customer`,
`id` and `status` from the subscription object, recovers the email from
`default_payment_method.billing_details` when that object is a dict, and,
when `customer` is truthy, writes the subscription snapshot. -/
def handle_subscription_updated (data full_event : JValue) : HandlerOutcome :=
  match data.get? "customer" with
  | none => .raised
  | some customer_id =>
    let subscription_id := (data.get? "id").getD .null
    let status := (data.get? "status").getD .null
    let finish := fun (email : JValue) =>
      if customer_id.truthy then
        HandlerOutcome.completed (some ⟨customer_id, email, subscription_id, status, full_event⟩)
      else HandlerOutcome.completed none
    match (data.get? "default_payment_method").getD .null with
    | .obj pm =>
      match ((dictGet pm "billing_details").pyOr (.obj [])).get? "email" with
      | none => .raised
      | some email => finish email
    | _ => finish .null

/-- Runs the registered background task: dispatches on the handler the
task holds, exactly as `background.add_task(handler, data, event)` stored
it. The outcome carries no seen-event state — the handlers have no access
to `seen_events`. -/
def runTask (t : ScheduledTask) : HandlerOutcome :=
  match t.handler with
  | .handle_checkout_completed => handle_checkout_completed t.data t.full_event
  | .handle_subscription_updated => handle_subscription_updated t.data t.full_event

/-- A full request round trip: serve the request, then run the registered
background task (after the response). The pair is the seen-event set the
process is left with and the task's outcome, if a task ran. -/
def processAndRun (webhookSecret : String) (req : WebhookRequest)
    (seen : List JValue) : List JValue × Option HandlerOutcome :=
  let r := stripe_webhook webhookSecret req seen
  (r.seen, r.task.map runTask)

/-! ## The dedup critical section under concurrency

Lines 232–235 of `src/app/main.py`: the membership test and the insertion
into `seen_events`. The endpoint is an `async def` served on the event
loop; between the `in` test and the `add` there is no `await` point (only
a synchronous log call), so the test-and-insert executes as one atomic
segment of the event loop. Two concurrent requests for the same identifier
can therefore only interleave at segment granularity: one whole
test-and-insert runs before the other. -/

/-- The test-and-insert critical section on the seen-event set: the flag
says whether the identifier was already seen (the request is then answered
as a duplicate as-is), otherwise the identifier is added. -/
def dedupCheck (eid : JValue) (seen : List JValue) : Bool × List JValue :=
  if seenMem eid seen then (true, seen) else (false, eid :: seen)

/-- Two concurrent webhook requests with identifiers `id1` and `id2`,
interleaved at the granularity of the atomic critical section:
`firstIsA` picks which request's test-and-insert runs first. Returns each
request's duplicate flag and the final seen-event set. -/
def twoRequests (id1 id2 : JValue) (seen : List JValue) (firstIsA : Bool) :
    (Bool × Bool) × List JValue :=
  if firstIsA then
    let r1 := dedupCheck id1 seen
    let r2 := dedupCheck id2 r1.2
    ((r1.1, r2.1), r2.2)
  else
    let r2 := dedupCheck id2 seen
    let r1 := dedupCheck id1 r2.2
    ((r1.1, r2.1), r1.2)

/-! ## Shared lemmas -/

theorem seenMem_cons_self (v : JValue) (s : List JValue) :
    seenMem v (v :: s) = true := by
  simp [seenMem, JValue.beq_refl]

theorem seenMem_cons_of_mem (v x : JValue) (s : List JValue)
    (h : seenMem v s = true) : seenMem v (x :: s) = true := by
  simp only [seenMem, List.any_cons, Bool.or_eq_true]
  exact Or.inr h

theorem empty_isEmpty : "".isEmpty = true := rfl

theorem isEmpty_false_of_ne (s : String) (h : s ≠ "") : s.isEmpty = false := by
  rw [Bool.eq_false_iff]
  intro he
  exact h ((String.isEmpty_iff _).mp he)

theorem computeSignature_isEmpty (secret : String) (P : Bytes) :
    (computeSignature secret P).isEmpty = false := by
  rw [Bool.eq_false_iff]
  intro h
  have h2 := (String.isEmpty_iff _).mp h
  rw [computeSignature] at h2
  have h3 := congrArg String.length h2
  simp [String.length_append] at h3
  exact absurd h3.1 (by decide)

/-! ## C1 — deduplication over two dispatches of one identifier -/

/-- C1: dispatching two verified events that share an identifier invokes
the handler exactly once. On a fresh identifier the first dispatch answers
with the plain `received` body and registers the background task for the
event's handler; the second dispatch answers with the body additionally
marked `duplicate`, registers no task, and adds nothing to the seen-event
set. -/
theorem dispatch_dedup_once (e1 e2 : List (String × JValue)) (s : List JValue)
    (h : TaskHandler) (d1 : JValue)
    (hid : eventId e2 = eventId e1)
    (hfresh : seenMem (eventId e1) s = false)
    (hd1 : extractData e1 = some d1)
    (hd2 : (extractData e2).isSome = true)
    (hh : route_event (eventType e1) = some h) :
    (dispatchEvent e1 s).response = .ok false ∧
    (dispatchEvent e1 s).task = some ⟨h, d1, .obj e1⟩ ∧
    (dispatchEvent e2 (dispatchEvent e1 s).seen).response = .ok true ∧
    (dispatchEvent e2 (dispatchEvent e1 s).seen).task = none ∧
    (dispatchEvent e2 (dispatchEvent e1 s).seen).seen = (dispatchEvent e1 s).seen := by
  have r1 : dispatchEvent e1 s = ⟨.ok false, eventId e1 :: s, some ⟨h, d1, .obj e1⟩⟩ := by
    simp [dispatchEvent, hd1, hfresh, hh]
  obtain ⟨d2, hd2e⟩ := Option.isSome_iff_exists.mp hd2
  have hmem : seenMem (eventId e2) (eventId e1 :: s) = true := by
    rw [hid]; exact seenMem_cons_self _ _
  have r2 : dispatchEvent e2 (eventId e1 :: s) = ⟨.ok true, eventId e1 :: s, none⟩ := by
    simp [dispatchEvent, hd2e, hmem]
  simp [r1, r2]

/-- Witness for C1: the spec §8 scenario event `evt_1` of type
`checkout.session.completed`, dispatched twice from the empty seen-event
set. -/
theorem dispatch_dedup_once_witness :
    (dispatchEvent
      [("id", JValue.str "evt_1"), ("type", JValue.str "checkout.session.completed"),
       ("data", JValue.obj [("object", JValue.obj [("customer", JValue.str "cus_1")])])]
      []).response = .ok false ∧
    (dispatchEvent
      [("id", JValue.str "evt_1"), ("type", JValue.str "checkout.session.completed"),
       ("data", JValue.obj [("object", JValue.obj [("customer", JValue.str "cus_1")])])]
      []).task =
      some ⟨.handle_checkout_completed, JValue.obj [("customer", JValue.str "cus_1")],
        JValue.obj
          [("id", JValue.str "evt_1"), ("type", JValue.str "checkout.session.completed"),
           ("data", JValue.obj [("object", JValue.obj [("customer", JValue.str "cus_1")])])]⟩ ∧
    (dispatchEvent
      [("id", JValue.str "evt_1"), ("type", JValue.str "checkout.session.completed"),
       ("data", JValue.obj [("object", JValue.obj [("customer", JValue.str "cus_1")])])]
      ((dispatchEvent
        [("id", JValue.str "evt_1"), ("type", JValue.str "checkout.session.completed"),
         ("data", JValue.obj [("object", JValue.obj [("customer", JValue.str "cus_1")])])]
        []).seen)).response = .ok true ∧
    (dispatchEvent
      [("id", JValue.str "evt_1"), ("type", JValue.str "checkout.session.completed"),
       ("data", JValue.obj [("object", JValue.obj [("customer", JValue.str "cus_1")])])]
      ((dispatchEvent
        [("id", JValue.str "evt_1"), ("type", JValue.str "checkout.session.completed"),
         ("data", JValue.obj [("object", JValue.obj [("customer", JValue.str "cus_1")])])]
        []).seen)).task = none ∧
    (dispatchEvent
      [("id", JValue.str "evt_1"), ("type", JValue.str "checkout.session.completed"),
       ("data", JValue.obj [("object", JValue.obj [("customer", JValue.str "cus_1")])])]
      ((dispatchEvent
        [("id", JValue.str "evt_1"), ("type", JValue.str "checkout.session.completed"),
         ("data", JValue.obj [("object", JValue.obj [("customer", JValue.str "cus_1")])])]
        []).seen)).seen =
      (dispatchEvent
        [("id", JValue.str "evt_1"), ("type", JValue.str "checkout.session.completed"),
         ("data", JValue.obj [("object", JValue.obj [("customer", JValue.str "cus_1")])])]
        []).seen :=
  dispatch_dedup_once _ _ [] .handle_checkout_completed
    (JValue.obj [("customer", JValue.str "cus_1")]) rfl rfl rfl rfl rfl

/-! ## C5 — unknown event types are not errors and are still deduplicated -/

/-- C5: a verified event whose `type` is not in the handler table gets the
plain non-error `received` response (the `Unhandled` outcome) and no
background task, yet its identifier still enters the seen-event set, so a
later event with the same identifier is answered as a duplicate with no
task. -/
theorem dispatch_unhandled (e1 e2 : List (String × JValue)) (s : List JValue)
    (d1 : JValue)
    (hh : route_event (eventType e1) = none)
    (hfresh : seenMem (eventId e1) s = false)
    (hd1 : extractData e1 = some d1)
    (hd2 : (extractData e2).isSome = true)
    (hid : eventId e2 = eventId e1) :
    (dispatchEvent e1 s).response = .ok false ∧
    (dispatchEvent e1 s).task = none ∧
    seenMem (eventId e1) (dispatchEvent e1 s).seen = true ∧
    (dispatchEvent e2 (dispatchEvent e1 s).seen).response = .ok true ∧
    (dispatchEvent e2 (dispatchEvent e1 s).seen).task = none := by
  have r1 : dispatchEvent e1 s = ⟨.ok false, eventId e1 :: s, none⟩ := by
    simp [dispatchEvent, hd1, hfresh, hh]
  obtain ⟨d2, hd2e⟩ := Option.isSome_iff_exists.mp hd2
  have hmem : seenMem (eventId e2) (eventId e1 :: s) = true := by
    rw [hid]; exact seenMem_cons_self _ _
  have r2 : dispatchEvent e2 (eventId e1 :: s) = ⟨.ok true, eventId e1 :: s, none⟩ := by
    simp [dispatchEvent, hd2e, hmem]
  refine ⟨by simp [r1], by simp [r1], ?_, by simp [r1, r2], by simp [r1, r2]⟩
  rw [r1]
  exact seenMem_cons_self _ _

/-- Witness for C5: an event of the unknown type `plan.created`,
dispatched twice from the empty seen-event set. -/
theorem dispatch_unhandled_witness :
    (dispatchEvent
      [("id", JValue.str "evt_9"), ("type", JValue.str "plan.created")]
      []).response = .ok false ∧
    (dispatchEvent
      [("id", JValue.str "evt_9"), ("type", JValue.str "plan.created")]
      []).task = none ∧
    seenMem (eventId [("id", JValue.str "evt_9"), ("type", JValue.str "plan.created")])
      (dispatchEvent
        [("id", JValue.str "evt_9"), ("type", JValue.str "plan.created")]
        []).seen = true ∧
    (dispatchEvent
      [("id", JValue.str "evt_9"), ("type", JValue.str "plan.created")]
      ((dispatchEvent
        [("id", JValue.str "evt_9"), ("type", JValue.str "plan.created")]
        []).seen)).response = .ok true ∧
    (dispatchEvent
      [("id", JValue.str "evt_9"), ("type", JValue.str "plan.created")]
      ((dispatchEvent
        [("id", JValue.str "evt_9"), ("type", JValue.str "plan.created")]
        []).seen)).task = none :=
  dispatch_unhandled _ _ [] (JValue.obj []) rfl rfl rfl rfl rfl

/-! ## C10 — events with no `id` share the `None` identifier -/

/-- C10: a verified event with no `id` field is deduplicated under the
`None` identifier: the dispatcher puts `None` into the seen-event set, and
once `None` is in the set every verified event that also lacks `id` — even
an otherwise different one — is answered as a duplicate with no background
task and no change to the set. -/
theorem dispatch_missing_id_dedups_on_null (e1 e2 : List (String × JValue))
    (s s2 : List JValue) (d1 : JValue)
    (h1 : e1.lookup "id" = none) (h2 : e2.lookup "id" = none)
    (hd1 : extractData e1 = some d1)
    (hd2 : (extractData e2).isSome = true)
    (hnull : seenMem .null s2 = true) :
    seenMem .null (dispatchEvent e1 s).seen = true ∧
    (dispatchEvent e2 s2).response = .ok true ∧
    (dispatchEvent e2 s2).task = none ∧
    (dispatchEvent e2 s2).seen = s2 := by
  have hid1 : eventId e1 = .null := by simp [eventId, dictGet, h1]
  have hid2 : eventId e2 = .null := by simp [eventId, dictGet, h2]
  obtain ⟨d2, hd2e⟩ := Option.isSome_iff_exists.mp hd2
  have r2 : dispatchEvent e2 s2 = ⟨.ok true, s2, none⟩ := by
    simp [dispatchEvent, hd2e, hid2, hnull]
  refine ⟨?_, by simp [r2], by simp [r2], by simp [r2]⟩
  by_cases hmem : seenMem (eventId e1) s = true
  · have r1 : dispatchEvent e1 s = ⟨.ok true, s, none⟩ := by
      simp [dispatchEvent, hd1, hmem]
    rw [r1, ← hid1]
    exact hmem
  · have hmf : seenMem (eventId e1) s = false := by
      rw [Bool.eq_false_iff]; exact hmem
    cases hr : route_event (eventType e1) with
    | some hdl =>
      have r1 : dispatchEvent e1 s = ⟨.ok false, eventId e1 :: s, some ⟨hdl, d1, .obj e1⟩⟩ := by
        simp [dispatchEvent, hd1, hmf, hr]
      rw [r1, hid1]
      exact seenMem_cons_self _ _
    | none =>
      have r1 : dispatchEvent e1 s = ⟨.ok false, eventId e1 :: s, none⟩ := by
        simp [dispatchEvent, hd1, hmf, hr]
      rw [r1, hid1]
      exact seenMem_cons_self _ _

/-- Witness for C10: an id-less `checkout.session.completed` event followed
by a different id-less event, the second answered as a duplicate. -/
theorem dispatch_missing_id_dedups_on_null_witness :
    seenMem .null
      (dispatchEvent
        [("type", JValue.str "checkout.session.completed"),
         ("data", JValue.obj [("object", JValue.obj [("customer", JValue.str "cus_1")])])]
        []).seen = true ∧
    (dispatchEvent [("type", JValue.str "invoice.payment_failed")]
      [JValue.null]).response = .ok true ∧
    (dispatchEvent [("type", JValue.str "invoice.payment_failed")]
      [JValue.null]).task = none ∧
    (dispatchEvent [("type", JValue.str "invoice.payment_failed")]
      [JValue.null]).seen = [JValue.null] :=
  dispatch_missing_id_dedups_on_null _ _ [] [JValue.null]
    (JValue.obj [("customer", JValue.str "cus_1")]) rfl rfl rfl rfl rfl

/-! ## C3 — status codes of the webhook failure classes -/

/-- C3: each failure class of the webhook endpoint maps to its own HTTP
status: an empty/unset webhook secret gives 500 `Webhook not configured`;
with a configured secret, an absent or empty signature header gives 400
`Missing Stripe-Signature header`; a signature that does not verify gives
400 `Invalid signature`; a verified call whose body fails to parse gives
400 `Invalid payload`. Configuration failure (500) is thereby externally
distinguishable from every verification failure (400). -/
theorem webhook_status_mapping (secret : String) (req : WebhookRequest)
    (s : List JValue) :
    (secret = "" →
      stripe_webhook secret req s = ⟨.error 500 "Webhook not configured", s, none⟩) ∧
    (secret ≠ "" → (req.stripe_signature = none ∨ req.stripe_signature = some "") →
      stripe_webhook secret req s = ⟨.error 400 "Missing Stripe-Signature header", s, none⟩) ∧
    (∀ sg, secret ≠ "" → req.stripe_signature = some sg → sg ≠ "" →
      constructEvent req.body sg secret = .error .signatureVerification →
      stripe_webhook secret req s = ⟨.error 400 "Invalid signature", s, none⟩) ∧
    (∀ sg, secret ≠ "" → req.stripe_signature = some sg → sg ≠ "" →
      constructEvent req.body sg secret = .error .parseError →
      stripe_webhook secret req s = ⟨.error 400 "Invalid payload", s, none⟩) := by
  refine ⟨?_, ?_, ?_, ?_⟩
  · intro h
    subst h
    rfl
  · intro hne hsig
    have hf := isEmpty_false_of_ne secret hne
    rcases hsig with hcase | hcase <;> simp [stripe_webhook, hf, hcase, empty_isEmpty]
  · intro sg hne hsig hsgne hce
    simp [stripe_webhook, isEmpty_false_of_ne _ hne, hsig,
      isEmpty_false_of_ne _ hsgne, hce]
  · intro sg hne hsig hsgne hce
    simp [stripe_webhook, isEmpty_false_of_ne _ hne, hsig,
      isEmpty_false_of_ne _ hsgne, hce]

/-- Witness for C3, exercising all four failure classes at concrete
requests: unset secret, missing header, a wrong signature over `[5, 0]`,
and a correctly signed body `[7]` that does not parse. -/
theorem webhook_status_mapping_witness :
    stripe_webhook "" ⟨[5, 0], some "v1=1"⟩ [] =
      ⟨.error 500 "Webhook not configured", [], none⟩ ∧
    stripe_webhook "whsec" ⟨[5, 0], none⟩ [] =
      ⟨.error 400 "Missing Stripe-Signature header", [], none⟩ ∧
    stripe_webhook "whsec" ⟨[5, 0], some "v1=1"⟩ [] =
      ⟨.error 400 "Invalid signature", [], none⟩ ∧
    stripe_webhook "whsec" ⟨[7], some (computeSignature "whsec" [7])⟩ [] =
      ⟨.error 400 "Invalid payload", [], none⟩ :=
  ⟨(webhook_status_mapping "" ⟨[5, 0], some "v1=1"⟩ []).1 rfl,
   (webhook_status_mapping "whsec" ⟨[5, 0], none⟩ []).2.1 (by decide) (Or.inl rfl),
   (webhook_status_mapping "whsec" ⟨[5, 0], some "v1=1"⟩ []).2.2.1 "v1=1"
     (by decide) rfl (by decide) rfl,
   (webhook_status_mapping "whsec" ⟨[7], some (computeSignature "whsec" [7])⟩ []).2.2.2
     (computeSignature "whsec" [7]) (by decide) rfl
     (by decide) rfl⟩

/-! ## C4 — the seen-event set is untouched until verification succeeds -/

/-- C4: the webhook endpoint changes the seen-event set only when
signature verification succeeded — whenever the set after the request
differs from the set before it, the secret was configured, a nonempty
signature header was supplied, and `construct_event` returned an event.
Moreover a request carrying an empty signature header is rejected with
HTTP 400 and the detail `Missing Stripe-Signature header`, the set
unchanged. -/
theorem webhook_seen_only_after_verify (secret : String) (req : WebhookRequest)
    (s : List JValue) :
    ((stripe_webhook secret req s).seen ≠ s →
      secret ≠ "" ∧ ∃ sg, req.stripe_signature = some sg ∧ sg ≠ "" ∧
        ∃ fs, constructEvent req.body sg secret = .ok fs) ∧
    (secret ≠ "" → req.stripe_signature = some "" →
      stripe_webhook secret req s =
        ⟨.error 400 "Missing Stripe-Signature header", s, none⟩) := by
  constructor
  · intro hne
    by_cases hsec : secret = ""
    · exact absurd (by simp [stripe_webhook, hsec, empty_isEmpty]) hne
    · have hf := isEmpty_false_of_ne secret hsec
      refine ⟨hsec, ?_⟩
      cases hsig : req.stripe_signature with
      | none => exact absurd (by simp [stripe_webhook, hf, hsig]) hne
      | some sg =>
        by_cases hsge : sg = ""
        · subst hsge
          exact absurd (by simp [stripe_webhook, hf, hsig, empty_isEmpty]) hne
        · have hsf := isEmpty_false_of_ne sg hsge
          refine ⟨sg, rfl, hsge, ?_⟩
          cases hce : constructEvent req.body sg secret with
          | error e =>
            cases e with
            | signatureVerification =>
              exact absurd (by simp [stripe_webhook, hf, hsig, hsf, hce]) hne
            | parseError =>
              exact absurd (by simp [stripe_webhook, hf, hsig, hsf, hce]) hne
          | ok fs => exact ⟨fs, rfl⟩
  · intro hne hsig
    simp [stripe_webhook, isEmpty_false_of_ne _ hne, hsig, empty_isEmpty]

/-- Witness for C4: a configured secret and an empty signature header give
the 400 `Missing Stripe-Signature header` rejection with the seen-event
set unchanged. -/
theorem webhook_seen_only_after_verify_witness :
    stripe_webhook "whsec" ⟨[5, 0], some ""⟩ [JValue.str "evt_1"] =
      ⟨.error 400 "Missing Stripe-Signature header", [JValue.str "evt_1"], none⟩ :=
  (webhook_seen_only_after_verify "whsec" ⟨[5, 0], some ""⟩ [JValue.str "evt_1"]).2
    (by decide) rfl

/-! ## C6 — the seen-event set only ever grows -/

/-- Any single webhook request either leaves the seen-event set as it was
or pushes exactly one identifier onto it. -/
theorem webhook_seen_shape (secret : String) (req : WebhookRequest)
    (s : List JValue) :
    (stripe_webhook secret req s).seen = s ∨
    ∃ x, (stripe_webhook secret req s).seen = x :: s := by
  by_cases hsec : secret.isEmpty = true
  · left; simp [stripe_webhook, hsec]
  · have hf : secret.isEmpty = false := by rw [Bool.eq_false_iff]; exact hsec
    cases hsig : req.stripe_signature with
    | none => left; simp [stripe_webhook, hf, hsig]
    | some sg =>
      by_cases hsge : sg.isEmpty = true
      · left; simp [stripe_webhook, hf, hsig, hsge]
      · have hsf : sg.isEmpty = false := by rw [Bool.eq_false_iff]; exact hsge
        cases hce : constructEvent req.body sg secret with
        | error e => cases e <;> (left; simp [stripe_webhook, hf, hsig, hsf, hce])
        | ok fs =>
          have hw : stripe_webhook secret req s = dispatchEvent fs s := by
            simp [stripe_webhook, hf, hsig, hsf, hce]
          rw [hw]
          cases hd : extractData fs with
          | none => left; simp [dispatchEvent, hd]
          | some d =>
            by_cases hm : seenMem (eventId fs) s = true
            · left; simp [dispatchEvent, hd, hm]
            · have hmf : seenMem (eventId fs) s = false := by
                rw [Bool.eq_false_iff]; exact hm
              cases hr : route_event (eventType fs) with
              | some h =>
                right; exact ⟨eventId fs, by simp [dispatchEvent, hd, hmf, hr]⟩
              | none =>
                right; exact ⟨eventId fs, by simp [dispatchEvent, hd, hmf, hr]⟩

/-- C6: the seen-event set grows monotonically over the process lifetime.
It starts empty (`set()` at line 157); a single request never removes an
identifier; running the registered background task leaves it untouched —
the handlers have no reference to it, whatever their outcome, including
failure (`processAndRun` recording exactly the post-request set); and over
any sequence of requests every identifier once seen stays seen. -/
theorem seen_events_monotone (secret : String) (req : WebhookRequest)
    (reqs : List WebhookRequest) (s : List JValue) (v : JValue) :
    initial_seen = [] ∧
    (seenMem v s = true → seenMem v (stripe_webhook secret req s).seen = true) ∧
    (processAndRun secret req s).1 = (stripe_webhook secret req s).seen ∧
    (seenMem v s = true → seenMem v (runWebhook secret reqs s) = true) := by
  have step : ∀ (r : WebhookRequest) (t : List JValue),
      seenMem v t = true → seenMem v (stripe_webhook secret r t).seen = true := by
    intro r t hw
    rcases webhook_seen_shape secret r t with h | ⟨x, h⟩
    · rw [h]; exact hw
    · rw [h]; exact seenMem_cons_of_mem _ _ _ hw
  have runstep : ∀ (rs : List WebhookRequest) (t : List JValue),
      seenMem v t = true → seenMem v (runWebhook secret rs t) = true := by
    intro rs
    induction rs with
    | nil => intro t ht; exact ht
    | cons r rs ih => intro t ht; exact ih _ (step r t ht)
  exact ⟨rfl, step req s, rfl, runstep reqs s⟩

/-- Witness for C6: the identifier `evt_1`, once seen, is still seen after
a further request and after a further run of requests. -/
theorem seen_events_monotone_witness :
    initial_seen = [] ∧
    seenMem (JValue.str "evt_1")
      (stripe_webhook "whsec" ⟨[5, 0], none⟩ [JValue.str "evt_1"]).seen = true ∧
    seenMem (JValue.str "evt_1")
      (runWebhook "whsec" [⟨[5, 0], none⟩, ⟨[], some "x"⟩] [JValue.str "evt_1"]) = true :=
  ⟨(seen_events_monotone "whsec" ⟨[5, 0], none⟩ [] [] JValue.null).1,
   (seen_events_monotone "whsec" ⟨[5, 0], none⟩ []
     [JValue.str "evt_1"] (JValue.str "evt_1")).2.1 rfl,
   (seen_events_monotone "whsec" ⟨[5, 0], none⟩ [⟨[5, 0], none⟩, ⟨[], some "x"⟩]
     [JValue.str "evt_1"] (JValue.str "evt_1")).2.2.2 rfl⟩

/-! ## C7 — the test-and-insert is one atomic step -/

/-- C7: under the event-loop execution model, where the test-and-insert of
lines 232–235 runs as one atomic segment (no `await` separates the `in`
test from the `add`), two concurrent requests carrying the same identifier
can never both be treated as first-seen, in either interleaving order; and
when the identifier is fresh, exactly one of the two is treated as
first-seen. -/
theorem dedup_test_and_insert_atomic (eid : JValue) (s : List JValue)
    (firstIsA : Bool) :
    (¬((twoRequests eid eid s firstIsA).1.1 = false ∧
       (twoRequests eid eid s firstIsA).1.2 = false)) ∧
    (seenMem eid s = false →
      ((twoRequests eid eid s firstIsA).1.1 = false ∧
       (twoRequests eid eid s firstIsA).1.2 = true) ∨
      ((twoRequests eid eid s firstIsA).1.1 = true ∧
       (twoRequests eid eid s firstIsA).1.2 = false)) := by
  cases firstIsA <;> by_cases hm : seenMem eid s = true <;>
    simp [twoRequests, dedupCheck, hm, seenMem_cons_self]

/-- Witness for C7: a fresh identifier delivered by two concurrent
requests, the other request's critical section running first. -/
theorem dedup_test_and_insert_atomic_witness :
    ((twoRequests (JValue.str "evt_1") (JValue.str "evt_1") [] false).1.1 = false ∧
     (twoRequests (JValue.str "evt_1") (JValue.str "evt_1") [] false).1.2 = true) ∨
    ((twoRequests (JValue.str "evt_1") (JValue.str "evt_1") [] false).1.1 = true ∧
     (twoRequests (JValue.str "evt_1") (JValue.str "evt_1") [] false).1.2 = false) :=
  (dedup_test_and_insert_atomic (JValue.str "evt_1") [] false).2 rfl

/-! ## C2 — a valid signature over any parseable payload verifies -/

/-- C2: for every payload carried as the raw body and the signature valid
for exactly those bytes under the configured secret, verification succeeds
and yields the structured event parsed from the very same bytes — and the
endpoint, which hands `construct_event` the unmodified `request.body()`,
then proceeds to dispatch exactly that event. -/
theorem verify_valid_signature (secret : String) (P : Bytes)
    (fs : List (String × JValue)) (s : List JValue)
    (hsec : secret ≠ "") (hp : parseEvent P = some (.obj fs)) :
    constructEvent P (computeSignature secret P) secret = .ok fs ∧
    stripe_webhook secret ⟨P, some (computeSignature secret P)⟩ s =
      dispatchEvent fs s := by
  have hce : constructEvent P (computeSignature secret P) secret = .ok fs := by
    simp [constructEvent, hp]
  exact ⟨hce, by
    simp [stripe_webhook, isEmpty_false_of_ne _ hsec, computeSignature_isEmpty, hce]⟩

/-- Witness for C2: the byte string encoding the object with field
`id = "x"`, signed with the secret `whsec`. -/
theorem verify_valid_signature_witness :
    constructEvent [5, 1, 2, 105, 100, 2, 1, 120]
      (computeSignature "whsec" [5, 1, 2, 105, 100, 2, 1, 120]) "whsec" =
      .ok [("id", JValue.str "x")] ∧
    stripe_webhook "whsec"
      ⟨[5, 1, 2, 105, 100, 2, 1, 120],
       some (computeSignature "whsec" [5, 1, 2, 105, 100, 2, 1, 120])⟩ [] =
      dispatchEvent [("id", JValue.str "x")] [] :=
  verify_valid_signature "whsec" [5, 1, 2, 105, 100, 2, 1, 120]
    [("id", JValue.str "x")] [] (by decide) rfl

/-! ## C8 — the authentication gate tests truthiness, not presence -/

/-- C8 counterexample: a session that does hold a stored user record — the
empty record under the key `user` — is nevertheless rejected as
unauthenticated by `require_user` and by the `/v1/auth/me` endpoint,
because the source tests Python truthiness of the stored value
(`if not request.session.get("user")`) and an empty dict is falsy. So the
gate does not fail exactly when no record is stored. -/
theorem require_user_rejects_stored_empty_record :
    sessionHasUser [("user", JValue.obj [])] = true ∧
    require_user [("user", JValue.obj [])] = .unauthenticated ∧
    auth_me [("user", JValue.obj [])] = .unauthenticated :=
  ⟨rfl, rfl, rfl⟩

/-- C8 (amended): `require_user` — and `/v1/auth/me`, which performs the
identical check — fails with `Unauthenticated` exactly when the session's
`user` entry is absent or Python-falsy (such as an empty record); when the
entry is truthy it returns the stored record unchanged, the session never
being written. In particular a session storing the record with email
`a@b.com` gets exactly that record back. -/
theorem require_user_truthiness (session : List (String × JValue)) :
    (require_user session = .unauthenticated ↔
      (dictGet session "user").truthy = false) ∧
    ((dictGet session "user").truthy = true →
      require_user session = .user (dictGet session "user")) ∧
    auth_me session = require_user session ∧
    require_user [("user", JValue.obj [("email", JValue.str "a@b.com")])] =
      .user (JValue.obj [("email", JValue.str "a@b.com")]) := by
  by_cases ht : (dictGet session "user").truthy = true
  · have hr : require_user session = .user (dictGet session "user") := by
      simp [require_user, ht]
    refine ⟨?_, fun _ => hr, rfl, rfl⟩
    rw [hr]
    constructor
    · intro h
      exact AuthResult.noConfusion h
    · intro h
      rw [ht] at h
      cases h
  · have hf : (dictGet session "user").truthy = false := by
      rw [Bool.eq_false_iff]; exact ht
    have hr : require_user session = .unauthenticated := by
      simp [require_user, hf]
    refine ⟨?_, ?_, rfl, rfl⟩
    · rw [hr]
      exact ⟨fun _ => hf, fun _ => rfl⟩
    · intro h
      rw [h] at hf
      cases hf

/-- Witness for C8 (amended): the session holding the record with email
`a@b.com` gets that record back. -/
theorem require_user_truthiness_witness :
    require_user [("user", JValue.obj [("email", JValue.str "a@b.com")])] =
      .user (JValue.obj [("email", JValue.str "a@b.com")]) :=
  (require_user_truthiness
    [("user", JValue.obj [("email", JValue.str "a@b.com")])]).2.1 rfl

/-! ## C9 — masking of the environment introspection endpoint -/

theorem envResponse_eq (s : Settings) :
    envResponse s =
      [("OPENAI_API_KEY", mask s.openai_api_key),
       ("STRIPE_SECRET_KEY", mask s.stripe_secret_key),
       ("GOOGLE_CLIENT_ID", mask s.google_client_id),
       ("GOOGLE_CLIENT_SECRET", mask s.google_client_secret),
       ("AZURE_SEARCH_ENDPOINT", s.azure_search_endpoint),
       ("AZURE_SEARCH_KEY",
        mask (if optTruthy s.azure_search_key then some "present" else none))] := rfl

theorem mask_congr (a b : Option String)
    (h : presenceLenAgree a b = true) (hp : samePresentLiteral a b) :
    mask a = mask b := by
  cases a with
  | none =>
    cases b with
    | none => rfl
    | some y => simp [presenceLenAgree] at h
  | some x =>
    cases b with
    | none => simp [presenceLenAgree] at h
    | some y =>
      have hlen : x.length = y.length := by
        simpa [presenceLenAgree] using h
      by_cases hx : x = "present"
      · have hy2 : y = "present" := Option.some.inj (hp.mp (by rw [hx]))
        rw [hx, hy2]
      · have hy2 : y ≠ "present" := fun hy =>
          hx (Option.some.inj (hp.mpr (by rw [hy])))
        simp [mask, hx, hy2, hlen]

theorem optTruthy_congr (a b : Option String) (h : presenceLenAgree a b = true) :
    optTruthy a = optTruthy b := by
  cases a with
  | none =>
    cases b with
    | none => rfl
    | some y => simp [presenceLenAgree] at h
  | some x =>
    cases b with
    | none => simp [presenceLenAgree] at h
    | some y =>
      have hlen : x.length = y.length := by
        simpa [presenceLenAgree] using h
      rw [optTruthy, optTruthy, hlen]

theorem probeMask_congr (a b : Option String) (h : presenceLenAgree a b = true) :
    probeMask a = probeMask b := by
  cases a with
  | none =>
    cases b with
    | none => rfl
    | some y => simp [presenceLenAgree] at h
  | some x =>
    cases b with
    | none => simp [presenceLenAgree] at h
    | some y =>
      have hlen : x.length = y.length := by
        simpa [presenceLenAgree] using h
      rw [probeMask, probeMask, hlen]

theorem mask_marker (v : Option String) : isPresenceMarker (mask v) := by
  cases v with
  | none => trivial
  | some x =>
    by_cases hx : x = "present"
    · rw [mask, if_pos hx]
      exact Or.inl rfl
    · rw [mask, if_neg hx]
      exact Or.inr ⟨x.length, rfl⟩

/-- C9 counterexample: two settings states that agree, secret by secret,
on presence and lengths, yet produce different `/v1/env` responses — the
`AZURE_SEARCH_ENDPOINT` value is forwarded verbatim by the route, so the
configured value itself appears in the response. -/
theorem env_reveals_endpoint :
    settingsAgree
      ⟨none, none, none, none, some "https://a.example", none⟩
      ⟨none, none, none, none, some "https://b.example", none⟩ = true ∧
    envResponse ⟨none, none, none, none, some "https://a.example", none⟩ ≠
      envResponse ⟨none, none, none, none, some "https://b.example", none⟩ ∧
    ("AZURE_SEARCH_ENDPOINT", some "https://a.example") ∈
      envResponse ⟨none, none, none, none, some "https://a.example", none⟩ := by
  refine ⟨by decide, by decide, by decide⟩

/-- C9 (amended): every key of the `/v1/env` response except
`AZURE_SEARCH_ENDPOINT` carries `null` or a presence marker (`"present"`
or `"present(len=N)"`), never the stored secret; and the response is
identical across settings states that agree on presence and lengths,
provided they also agree on the raw endpoint value (which the route
forwards verbatim) and on which secrets equal the literal string
`"present"` (which `mask` maps to the bare marker instead of a length
marker). The probe revision's `/env` satisfies the claim in full: its
response only depends on presence and lengths. -/
theorem env_masks_secrets (s1 s2 : Settings) (e1 e2 : ProbeEnv) :
    (settingsAgree s1 s2 = true →
      samePresentLiteral s1.openai_api_key s2.openai_api_key →
      samePresentLiteral s1.stripe_secret_key s2.stripe_secret_key →
      samePresentLiteral s1.google_client_id s2.google_client_id →
      samePresentLiteral s1.google_client_secret s2.google_client_secret →
      s1.azure_search_endpoint = s2.azure_search_endpoint →
      envResponse s1 = envResponse s2) ∧
    (∀ k v, (k, v) ∈ envResponse s1 → k ≠ "AZURE_SEARCH_ENDPOINT" →
      isPresenceMarker v) ∧
    (presenceLenAgree e1.openai_api_key e2.openai_api_key = true →
      presenceLenAgree e1.stripe_secret_key e2.stripe_secret_key = true →
      presenceLenAgree e1.google_client_id e2.google_client_id = true →
      presenceLenAgree e1.google_client_secret e2.google_client_secret = true →
      probeEnvResponse e1 = probeEnvResponse e2) := by
  refine ⟨?_, ?_, ?_⟩
  · intro hagree h1 h2 h3 h4 hend
    simp only [settingsAgree, Bool.and_eq_true] at hagree
    obtain ⟨⟨⟨⟨⟨a1, a2⟩, a3⟩, a4⟩, a5⟩, a6⟩ := hagree
    rw [envResponse_eq, envResponse_eq, mask_congr _ _ a1 h1, mask_congr _ _ a2 h2,
      mask_congr _ _ a3 h3, mask_congr _ _ a4 h4, hend, optTruthy_congr _ _ a6]
  · intro k v hmem hk
    rw [envResponse_eq] at hmem
    simp only [List.mem_cons, List.not_mem_nil, or_false, Prod.mk.injEq] at hmem
    rcases hmem with ⟨_, hv⟩ | ⟨_, hv⟩ | ⟨_, hv⟩ | ⟨_, hv⟩ | ⟨hk2, _⟩ | ⟨_, hv⟩
    · rw [hv]; exact mask_marker _
    · rw [hv]; exact mask_marker _
    · rw [hv]; exact mask_marker _
    · rw [hv]; exact mask_marker _
    · exact absurd hk2 hk
    · rw [hv]; exact mask_marker _
  · intro p1 p2 p3 p4
    rw [probeEnvResponse, probeEnvResponse, probeMask_congr _ _ p1,
      probeMask_congr _ _ p2, probeMask_congr _ _ p3, probeMask_congr _ _ p4]

/-- Witness for C9 (amended): two settings states whose secrets differ
only in their values (presence, lengths, endpoint and literal-`present`
status agreeing) produce identical `/v1/env` responses. -/
theorem env_masks_secrets_witness :
    envResponse ⟨some "sk-aaaa", none, none, none, some "https://s.example", some "k"⟩ =
      envResponse ⟨some "sk-bbbb", none, none, none, some "https://s.example", some "q"⟩ :=
  (env_masks_secrets
    ⟨some "sk-aaaa", none, none, none, some "https://s.example", some "k"⟩
    ⟨some "sk-bbbb", none, none, none, some "https://s.example", some "q"⟩
    ⟨none, none, none, none⟩ ⟨none, none, none, none⟩).1
    (by decide) (by decide) (by decide) (by decide) (by decide) rfl

end ContextAI
